import Mathlib

/-!
Verification of the `dust_attenuation` repository's tabulated
radiative-transfer engine (`WG00`, Witt & Gordon 2000) and its shared
attenuation-model contract, as a shallow embedding in Lean 4.

Numbers are embedded as rationals (`ℚ`); the magnitude-to-fraction
conversion `10 ** (-0.4 * a)` is embedded over `ℝ`.  Python exceptions
become an explicit error type and fallible code returns `Except`.
The WG00 data files (`data/WG00/<geometry>.txt`) ship with the package
but are outside `src/`; their row layout is modelled from the spec and
their numeric content is kept parametric.
-/

/-- Python exception kinds observed (or claimed) for this code base.
`configurationError` is the spec's taxonomy entry; it is included so that
claims about it are statable. -/
inductive PyError where
  | valueError (msg : String)
  | typeError (msg : String)
  | keyError (key : String)
  | nameError (name : String)
  | fileNotFoundError (path : String)
  | inputParameterError (msg : String)
  | configurationError (msg : String)
deriving DecidableEq

/-- Valid wavelength domain of WG00, in micron (`x_range_WG00 = [0.1, 3.0001]`,
radiative_transfer.py line 16). -/
def x_range_WG00 : ℚ × ℚ := (1/10, 30001/10000)

/-- Valid `tau_V` range (`tau_V_range = [0.25, 50.0]`, radiative_transfer.py
line 80). -/
def tau_V_range_WG00 : ℚ × ℚ := (1/4, 50)

/-- The error message built by `helpers._test_valid_x_range`. -/
def range_error_msg (x_range : ℚ × ℚ) (outname : String) : String :=
  "Input x outside of range defined for " ++ outname ++ " ["
    ++ toString x_range.1 ++ " <= x <= " ++ toString x_range.2
    ++ ", x has units micron]"

/-- `helpers._test_valid_x_range(x, x_range, outname)`: raises `ValueError`
when `np.any(x < x_range[0])` or `np.any(x > x_range[1])`. -/
def test_valid_x_range (x : List ℚ) (x_range : ℚ × ℚ) (outname : String) :
    Except PyError Unit :=
  if x.any (fun v => decide (v < x_range.1)) || x.any (fun v => decide (x_range.2 < v)) then
    Except.error (PyError.valueError (range_error_msg x_range outname))
  else
    Except.ok ()

/-- `helpers._positive_klambda(klam)`: if not all values are `>= 0`, emit a
warning and return `np.maximum(klam, 0.0)`, else return the input.  The
Boolean records whether the warning was emitted. -/
def positive_klambda (klam : List ℚ) : Bool × List ℚ :=
  if !(klam.all (fun v => decide (0 ≤ v))) then
    (true, klam.map (fun v => max v 0))
  else
    (false, klam)

/-! ### The interpolator

`WG00.__init__` wraps each grid in an astropy `tabular_model` with
`bounds_error=False, fill_value=None, method="linear"`.  Astropy delegates
to `scipy.interpolate.interpn`; with `fill_value=None` out-of-bounds
queries are *linearly extrapolated* from the nearest edge cell.  The
index search is `searchsorted(grid, x) - 1` clipped into `[0, n-2]`, and
the value is the weight-blended sum over the cell corners. -/

/-- `np.searchsorted(xs, q)` (side `left`) for a sorted list: the number of
elements strictly below `q`. -/
def countLT (xs : List ℚ) (q : ℚ) : ℕ :=
  (xs.filter (fun v => decide (v < q))).length

/-- The cell index used by scipy's regular-grid interpolator:
`searchsorted - 1`, clipped into `[0, length - 2]` (truncated `ℕ`
subtraction supplies the lower clip). -/
def findIndex (xs : List ℚ) (q : ℚ) : ℕ :=
  min (countLT xs q - 1) (xs.length - 2)

/-- The normalized distance of `q` inside its cell; may leave `[0, 1]`
for out-of-grid queries (that is the extrapolation). -/
def normDist (xs : List ℚ) (q : ℚ) : ℚ :=
  let i := findIndex xs q
  (q - xs.getD i 0) / (xs.getD (i+1) 0 - xs.getD i 0)

/-- Linear blend of the two cell endpoints with weight `t`. -/
def blend (a b t : ℚ) : ℚ := a * (1 - t) + b * t

/-- 1-D linear interpolation with edge-cell extrapolation — the semantics
of the astropy `Tabular1D` models built in `get_albedo` and
`get_scattering_phase_function`. -/
def interp1 (xs vs : List ℚ) (q : ℚ) : ℚ :=
  blend (vs.getD (findIndex xs q) 0) (vs.getD (findIndex xs q + 1) 0) (normDist xs q)

/-- A 2-D grid: wavelength axis, optical-depth axis, and the lookup table
indexed `table[wavelength index][tauV index]`. -/
structure Grid2D where
  xs : List ℚ
  ys : List ℚ
  table : List (List ℚ)
deriving DecidableEq

/-- 2-D bilinear interpolation with edge-cell extrapolation — the semantics
of the `2D_table` astropy models built in `WG00.__init__` (sum of the four
cell corners weighted by the per-axis blend weights). -/
def interp2 (g : Grid2D) (qx qy : ℚ) : ℚ :=
  let i := findIndex g.xs qx
  let tx := normDist g.xs qx
  let j := findIndex g.ys qy
  let ty := normDist g.ys qy
  (g.table.getD i []).getD j 0 * (1 - tx) * (1 - ty)
    + (g.table.getD (i+1) []).getD j 0 * tx * (1 - ty)
    + (g.table.getD i []).getD (j+1) 0 * (1 - tx) * ty
    + (g.table.getD (i+1) []).getD (j+1) 0 * tx * ty

/-! ### The grid builder (`WG00.__init__`, lines 143-173)

The loop `while counter < len_data: append(col[counter:counter+steps]);
counter += 2*steps` with `steps = 25`, followed by `np.array(list).T`. -/

/-- The column-collection loop of `WG00.__init__`: starting at `counter`,
take 25 rows, advance by 50, until `lenData` is reached. -/
def collectBlocks (col : List ℚ) (lenData counter : ℕ) : List (List ℚ) :=
  if counter < lenData then
    ((col.drop counter).take 25) :: collectBlocks col lenData (counter + 50)
  else
    []
termination_by lenData - counter
decreasing_by omega

/-- `np.array(cols).T` for a rectangular list of `W`-long columns: entry
`[w][t]` of the result is entry `[t][w]` of the input. -/
def transposeT (cols : List (List ℚ)) (W : ℕ) : List (List ℚ) :=
  (List.range W).map (fun w => cols.map (fun c => c.getD w 0))

/-- The fixed optical-depth grid (`tau_V_grid`, radiative_transfer.py
lines 177-206). -/
def tau_V_grid : List ℚ :=
  [1/4, 1/2, 3/4, 1, 3/2, 2, 5/2, 3, 7/2, 4, 9/2, 5, 11/2, 6, 7, 8,
   9, 10, 15, 20, 25, 30, 35, 40, 45, 50]

/-- The dust-type block offset (`radiative_transfer.py` lines 119-122).
An unrecognized dust type leaves the local variable `start` unassigned,
so the later `counter = start` raises `NameError` — hence `Option`. -/
def dustTypeStart (dust_type : String) : Option ℕ :=
  if dust_type = "mw" then some 0
  else if dust_type = "smc" then some 25
  else none

/-- Modelled from the spec: the WG00 table data source
(`data/WG00/<geometry>.txt`), which ships with the package but is not
under `src/`.  Per spec §6 it is a columnar table with named columns
`lambda`, `tau`, `tau_att_c`, `tau_att_h`, `f(sca)_c`, `f(sca)_h`,
`f(dir)_c`, `f(dir)_h`, `f(esc)_c`, `f(esc)_h`; rows come in blocks of
W=25 wavelength samples alternating MW/SMC per each of T=26 optical-depth
values.  The numeric content is kept parametric. -/
structure DataTable where
  lam : List ℚ
  tau : List ℚ
  tau_att_c : List ℚ
  tau_att_h : List ℚ
  fsca_c : List ℚ
  fsca_h : List ℚ
  fdir_c : List ℚ
  fdir_h : List ℚ
  fesc_c : List ℚ
  fesc_h : List ℚ
deriving DecidableEq

/-- Column access by name (`data[colname]`); a name with no matching
column raises `KeyError` — hence `Option`. -/
def DataTable.getColumn (d : DataTable) (name : String) : Option (List ℚ) :=
  if name = "lambda" then some d.lam
  else if name = "tau" then some d.tau
  else if name = "tau_att_c" then some d.tau_att_c
  else if name = "tau_att_h" then some d.tau_att_h
  else if name = "f(sca)_c" then some d.fsca_c
  else if name = "f(sca)_h" then some d.fsca_h
  else if name = "f(dir)_c" then some d.fdir_c
  else if name = "f(dir)_h" then some d.fdir_h
  else if name = "f(esc)_c" then some d.fesc_c
  else if name = "f(esc)_h" then some d.fesc_h
  else none

/-- The state of a constructed WG00 model: the selection strings, the
validated `tau_V`, the native wavelength axis, and the five interpolation
grids built in `__init__`. -/
structure WG00Model where
  geometry : String
  dust_type : String
  dust_distribution : String
  tau_V : ℚ
  wvl_grid : List ℚ
  model : Grid2D
  tau : Grid2D
  fsca : Grid2D
  fdir : Grid2D
  fesc : Grid2D
deriving DecidableEq

/-- Python's `str.lower()` (used to normalize the selection strings,
`__init__` lines 111-113): lower-case every character.  Stated over the
string's character list so that it evaluates on literals. -/
def pyLower (s : String) : String := ⟨s.data.map Char.toLower⟩

/-- What `WG00.__init__` has done by the time it terminates (normally or
with an exception): whether the data source was accessed (the
`ascii.read` call, line 117) and whether the interpolation grids were
built (lines 143-257). -/
structure InitTrace where
  dataAccessed : Bool
  gridsBuilt : Bool
deriving DecidableEq

/-- Read one quantity's column for the collection loop of `__init__`.
A missing column raises `KeyError` exactly when the loop body runs at
least once, i.e. when `start < lenData`. -/
def readLoopColumn (data : DataTable) (name : String) (start lenData : ℕ) :
    Except PyError (List ℚ) :=
  match data.getColumn name with
  | some col => Except.ok col
  | none =>
    if start < lenData then Except.error (PyError.keyError name)
    else Except.ok []

/-- The `tau_V` validator of `BaseAtttauVModel` (baseclasses.py lines
76-95), invoked by `super().__init__(tau_V=tau_V)` — the *last* statement
of `WG00.__init__`. -/
def tau_V_validator (value : ℚ) : Except PyError Unit :=
  if tau_V_range_WG00.1 ≤ value ∧ value ≤ tau_V_range_WG00.2 then
    Except.ok ()
  else
    Except.error (PyError.inputParameterError
      ("parameter tau_V must be between " ++ toString tau_V_range_WG00.1
        ++ " and " ++ toString tau_V_range_WG00.2))

/-- `WG00.__init__(tau_V, geometry, dust_type, dust_distribution)`,
parametrized by the data-file provider `files` (geometry name ↦ table).
Faithful to the source order: lower-casing, file read, column-name
suffixing, dust-type offset (`NameError` when unknown), the collection
loop (`KeyError` on a missing column), grid construction, and *finally*
the inherited `tau_V` validation. -/
def WG00init (files : String → Option DataTable) (tau_V : ℚ)
    (geometry dust_type dust_distribution : String) :
    InitTrace × Except PyError WG00Model :=
  let geometry := pyLower geometry
  let dust_type := pyLower dust_type
  let dust_distribution := pyLower dust_distribution
  match files geometry with
  | none => (⟨true, false⟩, Except.error (PyError.fileNotFoundError (geometry ++ ".txt")))
  | some data =>
    let suffix :=
      if dust_distribution = "clumpy" then "_c"
      else if dust_distribution = "homogeneous" then "_h"
      else ""
    let tau_colname := "tau"
    let tau_att_colname := "tau_att" ++ suffix
    let fsca_colname := "f(sca)" ++ suffix
    let fdir_colname := "f(dir)" ++ suffix
    let fesc_colname := "f(esc)" ++ suffix
    let len_data := data.lam.length
    match dustTypeStart dust_type with
    | none => (⟨true, false⟩, Except.error (PyError.nameError "start"))
    | some start =>
      let cols :=
        (readLoopColumn data tau_att_colname start len_data).bind (fun ca =>
        (readLoopColumn data tau_colname start len_data).bind (fun ct =>
        (readLoopColumn data fsca_colname start len_data).bind (fun cs =>
        (readLoopColumn data fdir_colname start len_data).bind (fun cd =>
        (readLoopColumn data fesc_colname start len_data).map (fun ce =>
          (ca, ct, cs, cd, ce))))))
      match cols with
      | Except.error e => (⟨true, false⟩, Except.error e)
      | Except.ok (ca, ct, cs, cd, ce) =>
        let wvl := data.lam.take 25
        let m : WG00Model :=
          { geometry := geometry
            dust_type := dust_type
            dust_distribution := dust_distribution
            tau_V := tau_V
            wvl_grid := wvl
            model := ⟨wvl, tau_V_grid, transposeT (collectBlocks ca len_data start) 25⟩
            tau := ⟨wvl, tau_V_grid, transposeT (collectBlocks ct len_data start) 25⟩
            fsca := ⟨wvl, tau_V_grid, transposeT (collectBlocks cs len_data start) 25⟩
            fdir := ⟨wvl, tau_V_grid, transposeT (collectBlocks cd len_data start) 25⟩
            fesc := ⟨wvl, tau_V_grid, transposeT (collectBlocks ce len_data start) 25⟩ }
        match tau_V_validator tau_V with
        | Except.error e => (⟨true, true⟩, Except.error e)
        | Except.ok _ => (⟨true, true⟩, Except.ok m)

/-! ### Evaluation methods -/

/-- A numpy-style input: a 0-d scalar or a 1-d vector.  (Unit-tagged
quantities are assumed already normalized to micron, per the spec's
UnitNormalizer collaborator contract.) -/
inductive NPInput where
  | scalar (v : ℚ)
  | vec (vs : List ℚ)
deriving DecidableEq

/-- The elements of an input, as seen by vectorized numpy predicates
such as `np.any(x < lo)` (which accept 0-d values). -/
def NPInput.toList : NPInput → List ℚ
  | NPInput.scalar v => [v]
  | NPInput.vec vs => vs

/-- `len(x)`: raises `TypeError` on a 0-d value. -/
def npLen : NPInput → Except PyError ℕ
  | NPInput.scalar _ => Except.error (PyError.typeError "len() of unsized object")
  | NPInput.vec vs => Except.ok vs.length

/-- `np.atleast_1d`. -/
def atleast_1d (x : NPInput) : List ℚ := x.toList

/-- `WG00.evaluate(x, tau_V)` (lines 263-311): domain check, `n_x = len(x)`
(note: *no* `np.atleast_1d`, unlike every sibling method), `xinterp = 1e4*x`,
`yinterp = tau_V*ones(n_x)`, `taux = self.model(xinterp, yinterp)`,
`Attx = 1.086 * taux`. -/
def WG00Model.evaluate (m : WG00Model) (x : NPInput) (tau_V : ℚ) :
    Except PyError (List ℚ) :=
  (test_valid_x_range x.toList x_range_WG00 "WG00").bind (fun _ =>
  (npLen x).map (fun n_x =>
    let xs := x.toList
    let xinterp := xs.map (fun v => 10000 * v)
    let yinterp := List.replicate n_x tau_V
    let taux := (xinterp.zip yinterp).map (fun p => interp2 m.model p.1 p.2)
    taux.map (fun t => (1.086 : ℚ) * t)))

/-- `WG00.get_extinction(x, tau_V)` (lines 313-358): domain check,
`x = np.atleast_1d(x)`, then the same query against the total
optical-depth grid, `* 1.086`. -/
def WG00Model.get_extinction (m : WG00Model) (x : NPInput) (tau_V : ℚ) :
    Except PyError (List ℚ) :=
  (test_valid_x_range x.toList x_range_WG00 "WG00").map (fun _ =>
    let xs := atleast_1d x
    let n_x := xs.length
    let xinterp := xs.map (fun v => 10000 * v)
    let yinterp := List.replicate n_x tau_V
    ((xinterp.zip yinterp).map (fun p => interp2 m.tau p.1 p.2)).map
      (fun t => t * (1.086 : ℚ)))

/-- The embedded MW albedo constants (`alb_MW`, lines 540-568). -/
def alb_MW : List ℚ :=
  [0.320, 0.409, 0.481, 0.526, 0.542, 0.536, 0.503, 0.432, 0.371, 0.389,
   0.437, 0.470, 0.486, 0.499, 0.506, 0.498, 0.502, 0.491, 0.481, 0.500,
   0.473, 0.457, 0.448, 0.424, 0.400]

/-- The embedded SMC albedo constants (`alb_SMC`, lines 570-598). -/
def alb_SMC : List ℚ :=
  [0.400, 0.449, 0.473, 0.494, 0.508, 0.524, 0.529, 0.528, 0.523, 0.520,
   0.516, 0.511, 0.505, 0.513, 0.515, 0.498, 0.494, 0.489, 0.484, 0.493,
   0.475, 0.465, 0.439, 0.417, 0.400]

/-- The embedded MW scattering phase-function constants (`g_MW`,
lines 658-686). -/
def g_MW : List ℚ :=
  [0.800, 0.783, 0.767, 0.756, 0.745, 0.736, 0.727, 0.720, 0.712, 0.707,
   0.702, 0.697, 0.691, 0.685, 0.678, 0.646, 0.624, 0.597, 0.563, 0.545,
   0.533, 0.511, 0.480, 0.445, 0.420]

/-- The embedded SMC scattering phase-function constants (`g_SMC`,
lines 688-716). -/
def g_SMC : List ℚ :=
  [0.800, 0.783, 0.767, 0.756, 0.745, 0.736, 0.727, 0.720, 0.712, 0.707,
   0.702, 0.697, 0.691, 0.685, 0.678, 0.646, 0.624, 0.597, 0.563, 0.545,
   0.533, 0.511, 0.480, 0.445, 0.420]

/-- `WG00.get_albedo(x)` (lines 501-617): domain check, `np.atleast_1d`,
dust-type selection of the constant table, 1-D interpolation on the
native wavelength grid. -/
def WG00Model.get_albedo (m : WG00Model) (x : NPInput) :
    Except PyError (List ℚ) :=
  (test_valid_x_range x.toList x_range_WG00 "WG00").bind (fun _ =>
    let xs := atleast_1d x
    match (if m.dust_type = "smc" then some alb_SMC
           else if m.dust_type = "mw" then some alb_MW else none) with
    | none => Except.error (PyError.nameError "albedo")
    | some albedo =>
      Except.ok (xs.map (fun v => interp1 m.wvl_grid albedo (10000 * v))))

/-- `WG00.get_scattering_phase_function(x)` (lines 619-735): same shape
as `get_albedo`, over the `g` constants. -/
def WG00Model.get_scattering_phase_function (m : WG00Model) (x : NPInput) :
    Except PyError (List ℚ) :=
  (test_valid_x_range x.toList x_range_WG00 "WG00").bind (fun _ =>
    let xs := atleast_1d x
    match (if m.dust_type = "smc" then some g_SMC
           else if m.dust_type = "mw" then some g_MW else none) with
    | none => Except.error (PyError.nameError "g")
    | some g =>
      Except.ok (xs.map (fun v => interp1 m.wvl_grid g (10000 * v))))

/-- `self(x)` on a WG00 instance: astropy's `__call__` dispatches to
`evaluate` with the stored `tau_V` parameter. -/
def WG00Model.call (m : WG00Model) (x : NPInput) : Except PyError (List ℚ) :=
  m.evaluate x m.tau_V

/-- `np.power(10.0, -0.4 * a)`: the magnitude-to-fraction conversion.
Real exponentiation is the one operation with no executable rational
embedding, hence `noncomputable`. -/
noncomputable def np_power10 (a : ℚ) : ℝ :=
  (10 : ℝ) ^ ((-0.4 : ℝ) * (a : ℝ))

/-- `BaseAttModel.attenuate(x)` (baseclasses.py lines 18-39):
`ax = self(x); return np.power(10.0, -0.4 * ax)`. -/
noncomputable def WG00Model.attenuate (m : WG00Model) (x : NPInput) :
    Except PyError (List ℝ) :=
  (m.call x).map (fun ax => ax.map np_power10)

/-! ### Concrete sample data

Small concrete instances used to exercise the embedded code on explicit
inputs.  The wavelength axes are in Angstrom (the grids are queried at
`1e4 * x` for `x` in micron) and span the native 0.1–3.0 micron range. -/

/-- A concrete model whose attenuation grid is constant `1`. -/
def M1 : WG00Model :=
  { geometry := "shell"
    dust_type := "mw"
    dust_distribution := "homogeneous"
    tau_V := 1
    wvl_grid := [1000, 30000]
    model := ⟨[1000, 30000], [1/4, 50], [[1, 1], [1, 1]]⟩
    tau := ⟨[1000, 30000], [1/4, 50], [[2, 2], [2, 2]]⟩
    fsca := ⟨[1000, 30000], [1/4, 50], [[0, 0], [0, 0]]⟩
    fdir := ⟨[1000, 30000], [1/4, 50], [[0, 0], [0, 0]]⟩
    fesc := ⟨[1000, 30000], [1/4, 50], [[0, 0], [0, 0]]⟩ }

/-- A concrete model identical to `M1` except for the dust type (for the
dust-type independence of the phase function). -/
def M1smc : WG00Model :=
  { M1 with dust_type := "smc" }

/-- A concrete model whose attenuation grid is constant `-1` (interpolated
reddening values can come out negative; nothing in the evaluation path
clips them). -/
def Mneg : WG00Model :=
  { M1 with model := ⟨[1000, 30000], [1/4, 50], [[-1, -1], [-1, -1]]⟩ }

/-- A concrete model whose attenuation grid rises along the wavelength
axis (so extrapolation beyond the top edge exceeds the boundary value). -/
def M3 : WG00Model :=
  { M1 with model := ⟨[1000, 30000], [1/4, 50], [[0, 0], [1, 1]]⟩ }

/-- A one-row concrete data table (enough to drive the construction-order
and error-kind scenarios; the collection loop runs at least once). -/
def sampleTable : DataTable :=
  { lam := [1000], tau := [1], tau_att_c := [1], tau_att_h := [1]
    fsca_c := [0], fsca_h := [0], fdir_c := [0], fdir_h := [0]
    fesc_c := [0], fesc_h := [0] }

/-- A concrete data-file provider: the three geometry files exist, nothing
else does. -/
def sampleFiles : String → Option DataTable := fun g =>
  if g = "shell" then some sampleTable
  else if g = "cloudy" then some sampleTable
  else if g = "dusty" then some sampleTable
  else none

/-! ### List lemmas -/

/-- Zipping a list against `replicate length c` and mapping is mapping
with the constant second component. -/
theorem zip_replicate_map {α : Type} (f : ℚ × ℚ → α) (c : ℚ) :
    ∀ l : List ℚ, (l.zip (List.replicate l.length c)).map f
      = l.map (fun a => f (a, c))
  | [] => rfl
  | a :: l => by
    simpa [List.replicate_succ] using zip_replicate_map f c l

/-- `test_valid_x_range` succeeds exactly when every element is inside
the closed range. -/
theorem test_valid_x_range_ok (x : List ℚ) (r : ℚ × ℚ) (s : String)
    (h : ∀ v ∈ x, r.1 ≤ v ∧ v ≤ r.2) :
    test_valid_x_range x r s = Except.ok () := by
  unfold test_valid_x_range
  rw [if_neg]
  simp only [Bool.or_eq_true, List.any_eq_true, decide_eq_true_eq, not_or, not_exists]
  constructor
  · intro v hv
    exact absurd hv.2 (not_lt.mpr (h v hv.1).1)
  · intro v hv
    exact absurd hv.2 (not_lt.mpr (h v hv.1).2)

/-- `test_valid_x_range` raises exactly the documented `ValueError` when
some element is outside the range. -/
theorem test_valid_x_range_err (x : List ℚ) (r : ℚ × ℚ) (s : String)
    (h : ∃ v ∈ x, v < r.1 ∨ r.2 < v) :
    test_valid_x_range x r s
      = Except.error (PyError.valueError (range_error_msg r s)) := by
  unfold test_valid_x_range
  rw [if_pos]
  obtain ⟨v, hv, hcase⟩ := h
  simp only [Bool.or_eq_true, List.any_eq_true, decide_eq_true_eq]
  rcases hcase with hlt | hgt
  · exact Or.inl ⟨v, hv, hlt⟩
  · exact Or.inr ⟨v, hv, hgt⟩

/-- The zip/replicate plumbing of `evaluate` collapses to a single map. -/
theorem evaluate_zip_map (m : WG00Model) (τ : ℚ) :
    ∀ xs : List ℚ,
      (((xs.map (fun v => (10000 : ℚ) * v)).zip (List.replicate xs.length τ)).map
          (fun p => interp2 m.model p.1 p.2)).map (fun t => (1.086 : ℚ) * t)
        = xs.map (fun v => (1.086 : ℚ) * interp2 m.model (10000 * v) τ)
  | [] => rfl
  | a :: xs => by
    simpa [List.replicate_succ] using evaluate_zip_map m τ xs

/-- On an in-range vector input, `WG00.evaluate` returns
`1.086 * (bilinear interpolation of the tau_att grid at (1e4*x, tau_V))`,
element-wise. -/
theorem evaluate_vec_ok (m : WG00Model) (xs : List ℚ) (τ : ℚ)
    (h : ∀ v ∈ xs, x_range_WG00.1 ≤ v ∧ v ≤ x_range_WG00.2) :
    m.evaluate (NPInput.vec xs) τ
      = Except.ok (xs.map (fun v => (1.086 : ℚ) * interp2 m.model (10000 * v) τ)) := by
  unfold WG00Model.evaluate
  simp only [NPInput.toList]
  rw [test_valid_x_range_ok _ _ _ h]
  simp only [Except.bind, npLen, Except.map]
  exact congrArg Except.ok (evaluate_zip_map m τ xs)

/-! ### Interpolator lemmas -/

/-- For a strictly increasing axis, the number of axis values strictly
below the `k`-th node is `k`. -/
theorem countLT_node : ∀ (xs : List ℚ), xs.Pairwise (· < ·) →
    ∀ k, k < xs.length → countLT xs (xs.getD k 0) = k := by
  intro xs
  induction xs with
  | nil =>
    intro _ k hk
    simp at hk
  | cons a tl ih =>
    intro h k hk
    obtain ⟨ha, htl⟩ := List.pairwise_cons.mp h
    cases k with
    | zero =>
      have h1 : tl.filter (fun v => decide (v < a)) = [] := by
        rw [List.filter_eq_nil_iff]
        intro b hb
        simp only [decide_eq_true_eq]
        exact not_lt.mpr (ha b hb).le
      simp [countLT, List.filter_cons, h1]
    | succ j =>
      have hj : j < tl.length := by simpa using hk
      have hmem : tl.getD j 0 ∈ tl := by
        rw [List.getD_eq_getElem _ _ hj]
        exact List.getElem_mem hj
      have halt : a < tl.getD j 0 := ha _ hmem
      have hrec := ih htl j hj
      rw [List.getD_cons_succ]
      unfold countLT at hrec ⊢
      rw [List.filter_cons, if_pos (by simpa using halt), List.length_cons, hrec]

/-- At the `k`-th node of a strictly increasing axis, the interpolator
selects either cell `k` with weight `0` (at the bottom node) or cell
`k-1` with weight `1`. -/
theorem node_index_weight (xs : List ℚ) (hs : xs.Pairwise (· < ·))
    (hlen : 2 ≤ xs.length) (k : ℕ) (hk : k < xs.length) :
    (k = 0 ∧ findIndex xs (xs.getD k 0) = 0 ∧ normDist xs (xs.getD k 0) = 0)
    ∨ (1 ≤ k ∧ findIndex xs (xs.getD k 0) = k - 1 ∧ normDist xs (xs.getD k 0) = 1) := by
  have hcount := countLT_node xs hs k hk
  cases k with
  | zero =>
    left
    have hfi : findIndex xs (xs.getD 0 0) = 0 := by
      unfold findIndex
      rw [hcount]
      simp
    refine ⟨rfl, hfi, ?_⟩
    simp only [normDist, hfi]
    rw [sub_self, zero_div]
  | succ j =>
    right
    have hfi : findIndex xs (xs.getD (j+1) 0) = j := by
      unfold findIndex
      rw [hcount]
      exact Nat.min_eq_left (by omega)
    have hlt : xs.getD j 0 < xs.getD (j+1) 0 := by
      have h1 : xs.getD j 0 = xs.get ⟨j, by omega⟩ :=
        List.getD_eq_get xs 0 (by omega)
      have h2 : xs.getD (j+1) 0 = xs.get ⟨j+1, hk⟩ :=
        List.getD_eq_get xs 0 hk
      have hp : xs.get ⟨j, by omega⟩ < xs.get ⟨j+1, hk⟩ :=
        List.pairwise_iff_getElem.mp hs j (j+1) (by omega) hk (Nat.lt_succ_self j)
      exact lt_of_eq_of_lt h1 (lt_of_lt_of_eq hp h2.symm)
    refine ⟨by omega, hfi, ?_⟩
    simp only [normDist, hfi]
    exact div_self (sub_ne_zero.mpr (ne_of_gt hlt))

/-- 1-D interpolation at an exact node of a strictly increasing axis
returns the stored value. -/
theorem interp1_node (xs vs : List ℚ) (hs : xs.Pairwise (· < ·))
    (hlen : 2 ≤ xs.length) (k : ℕ) (hk : k < xs.length) :
    interp1 xs vs (xs.getD k 0) = vs.getD k 0 := by
  rcases node_index_weight xs hs hlen k hk with ⟨hk0, hfi, hnd⟩ | ⟨hk1, hfi, hnd⟩
  · subst hk0
    simp only [interp1, hfi, hnd, blend]
    ring
  · simp only [interp1, hfi, hnd, blend]
    rw [show k - 1 + 1 = k from by omega]
    ring

/-- 2-D bilinear interpolation at an exact grid node returns the stored
table value. -/
theorem interp2_node (g : Grid2D) (hx : g.xs.Pairwise (· < ·))
    (hy : g.ys.Pairwise (· < ·)) (hxl : 2 ≤ g.xs.length) (hyl : 2 ≤ g.ys.length)
    (i j : ℕ) (hi : i < g.xs.length) (hj : j < g.ys.length) :
    interp2 g (g.xs.getD i 0) (g.ys.getD j 0) = (g.table.getD i []).getD j 0 := by
  rcases node_index_weight g.xs hx hxl i hi with ⟨hi0, hfx, hnx⟩ | ⟨hi1, hfx, hnx⟩ <;>
    rcases node_index_weight g.ys hy hyl j hj with ⟨hj0, hfy, hny⟩ | ⟨hj1, hfy, hny⟩
  · subst hi0; subst hj0
    simp only [interp2, hfx, hnx, hfy, hny]
    ring
  · subst hi0
    simp only [interp2, hfx, hnx, hfy, hny]
    rw [show j - 1 + 1 = j from by omega]
    ring
  · subst hj0
    simp only [interp2, hfx, hnx, hfy, hny]
    rw [show i - 1 + 1 = i from by omega]
    ring
  · simp only [interp2, hfx, hnx, hfy, hny]
    rw [show i - 1 + 1 = i from by omega, show j - 1 + 1 = j from by omega]
    ring

/-- When the query is above every axis value, `searchsorted` returns the
axis length. -/
theorem countLT_all (xs : List ℚ) (q : ℚ) (h : ∀ v ∈ xs, v < q) :
    countLT xs q = xs.length := by
  unfold countLT
  exact congrArg List.length
    (List.filter_eq_self.mpr (fun a ha => decide_eq_true (h a ha)))

/-- A query above the whole axis is linearly extrapolated from the top
edge cell (the last two nodes) — not clamped to the boundary value. -/
theorem interp1_extrapolate_top (xs vs : List ℚ) (q : ℚ)
    (hlen : 2 ≤ xs.length) (h : ∀ v ∈ xs, v < q) :
    interp1 xs vs q
      = blend (vs.getD (xs.length - 2) 0) (vs.getD (xs.length - 1) 0)
          ((q - xs.getD (xs.length - 2) 0)
            / (xs.getD (xs.length - 1) 0 - xs.getD (xs.length - 2) 0)) := by
  have hc := countLT_all xs q h
  have hfi : findIndex xs q = xs.length - 2 := by
    rw [findIndex, hc]
    exact Nat.min_eq_right (by omega)
  have h1 : xs.length - 2 + 1 = xs.length - 1 := by omega
  simp only [interp1, normDist, hfi, h1]

/-! ### Grid-builder lemmas -/

/-- The `t`-th block collected by the `__init__` loop starting at
`counter = c` is rows `[c + 50*t, c + 50*t + 25)` of the source column,
present exactly when `c + 50*t < lenData`. -/
theorem collectBlocks_get? (col : List ℚ) (L : ℕ) :
    ∀ (t c : ℕ), (collectBlocks col L c).get? t
      = if c + 50 * t < L then some ((col.drop (c + 50 * t)).take 25) else none := by
  intro t
  induction t with
  | zero =>
    intro c
    rw [collectBlocks]
    by_cases h : c < L
    · rw [if_pos h, if_pos (by omega)]
      rfl
    · rw [if_neg h, if_neg (by omega)]
      rfl
  | succ n ih =>
    intro c
    rw [collectBlocks]
    by_cases h : c < L
    · rw [if_pos h]
      show (collectBlocks col L (c + 50)).get? n = _
      rw [ih (c + 50)]
      have harith : c + 50 + 50 * n = c + 50 * (n + 1) := by ring
      rw [harith]
    · rw [if_neg h, if_neg (by omega)]
      rfl

/-- The collection loop over a 1300-row table (2 dust types × 25
wavelengths × 26 optical depths) yields exactly the 26 blocks
`rows [start + 50*t, start + 50*t + 25)`. -/
theorem collectBlocks_1300 (col : List ℚ) (start : ℕ) (h25 : start ≤ 25) :
    collectBlocks col 1300 start
      = (List.range 26).map (fun t => (col.drop (start + 50 * t)).take 25) := by
  apply List.ext_get?
  intro t
  rw [collectBlocks_get?, List.get?_map]
  by_cases ht : t < 26
  · rw [if_pos (by omega), List.get?_range ht]
    rfl
  · rw [if_neg (by omega), List.get?_eq_none.mpr (by simpa using Nat.not_lt.mp ht)]
    rfl

/-- Closed form of the bilinear interpolation on a 2×2 grid (the cell
index is forced to `(0,0)` since each axis has length 2). -/
theorem interp2_two_by_two (x0 x1 y0 y1 a b c d qx qy : ℚ) :
    interp2 ⟨[x0, x1], [y0, y1], [[a, b], [c, d]]⟩ qx qy
      = a * (1 - (qx - x0) / (x1 - x0)) * (1 - (qy - y0) / (y1 - y0))
        + c * ((qx - x0) / (x1 - x0)) * (1 - (qy - y0) / (y1 - y0))
        + b * (1 - (qx - x0) / (x1 - x0)) * ((qy - y0) / (y1 - y0))
        + d * ((qx - x0) / (x1 - x0)) * ((qy - y0) / (y1 - y0)) := by
  have hx : findIndex [x0, x1] qx = 0 := by
    simp [findIndex]
  have hy : findIndex [y0, y1] qy = 0 := by
    simp [findIndex]
  simp only [interp2, normDist, hx, hy, List.getD]
  simp [blend]

/-! ### The claims -/

/-- C1 (amended): for every in-domain wavelength vector and every tauV,
`evaluate` equals `1.086` (the code's conversion factor — not the
claimed `1.0857`) times the bilinearly interpolated attenuation optical
depth; and at an exact grid node (in particular the native V-band
wavelength sample with tauV equal to a grid value) the interpolated
value is the raw tabulated optical depth, so `evaluate` returns
`1.086 * (raw tabulated value)` there. -/
theorem C1_evaluate_factor (m : WG00Model) (xs : List ℚ) (τ : ℚ)
    (hdom : ∀ v ∈ xs, x_range_WG00.1 ≤ v ∧ v ≤ x_range_WG00.2) :
    m.evaluate (NPInput.vec xs) τ
      = Except.ok (xs.map (fun v => (1.086 : ℚ) * interp2 m.model (10000 * v) τ))
    ∧ (∀ i j, m.model.xs.Pairwise (· < ·) → m.model.ys.Pairwise (· < ·) →
        2 ≤ m.model.xs.length → 2 ≤ m.model.ys.length →
        i < m.model.xs.length → j < m.model.ys.length →
        interp2 m.model (m.model.xs.getD i 0) (m.model.ys.getD j 0)
          = (m.model.table.getD i []).getD j 0) := by
  refine ⟨evaluate_vec_ok m xs τ hdom, ?_⟩
  intro i j hx hy hxl hyl hi hj
  exact interp2_node m.model hx hy hxl hyl i j hi hj

/-- C1 counterexample: on a concrete grid holding constant optical depth
`1`, `evaluate` at the V-band sample returns `1.086 * 1`, not
`1.0857 * 1` — the claimed conversion factor `1.0857` is not the code's. -/
theorem C1_counterexample :
    M1.evaluate (NPInput.vec [55/100]) 1
      = Except.ok ([55/100].map (fun v => (1.086 : ℚ) * interp2 M1.model (10000 * v) 1))
    ∧ M1.evaluate (NPInput.vec [55/100]) 1
      ≠ Except.ok ([55/100].map (fun v => (1.0857 : ℚ) * interp2 M1.model (10000 * v) 1)) := by
  have hint : interp2 M1.model (10000 * (55/100 : ℚ)) 1 = 1 := by
    show interp2 ⟨[1000, 30000], [1/4, 50], [[1, 1], [1, 1]]⟩ (10000 * (55/100 : ℚ)) 1 = 1
    rw [interp2_two_by_two]
    norm_num
  have he := evaluate_vec_ok M1 [55/100] 1 (by
    intro v hv
    rw [List.mem_singleton] at hv
    subst hv
    constructor <;> norm_num [x_range_WG00])
  refine ⟨he, ?_⟩
  rw [he]
  simp only [ne_eq, Except.ok.injEq, List.map_cons, List.map_nil, List.cons.injEq, and_true]
  rw [hint]
  norm_num

/-- C1 witness: the amended theorem applied to the concrete model `M1`
at the V-band wavelength with `tauV = 1`, and to the grid node `(0,0)`. -/
theorem C1_witness :
    M1.evaluate (NPInput.vec [55/100]) 1
      = Except.ok ([55/100].map (fun v => (1.086 : ℚ) * interp2 M1.model (10000 * v) 1))
    ∧ interp2 M1.model (M1.model.xs.getD 0 0) (M1.model.ys.getD 0 0)
      = (M1.model.table.getD 0 []).getD 0 0 :=
  ⟨(C1_evaluate_factor M1 [55/100] 1 (by
      intro v hv
      rw [List.mem_singleton] at hv
      subst hv
      constructor <;> norm_num [x_range_WG00])).1,
   (C1_evaluate_factor M1 [55/100] 1 (by
      intro v hv
      rw [List.mem_singleton] at hv
      subst hv
      constructor <;> norm_num [x_range_WG00])).2 0 0
     (by norm_num [M1, List.pairwise_cons]) (by norm_num [M1, List.pairwise_cons])
     (by norm_num [M1]) (by norm_num [M1]) (by norm_num [M1]) (by norm_num [M1])⟩

/-- C2: the grid builder starting at the dust-type offset (0 for MW, 25
for SMC) over the flat 2*25*26-row table collects 26 contiguous 25-row
runs with a 50-row stride — block `t` is rows
`[offset + 50*t, offset + 50*t + 25)` of the source column — and the
transposed grid has shape exactly (W, T) = (25, 26). -/
theorem C2_grid_builder (col : List ℚ) (hcol : col.length = 1300)
    (start : ℕ) (hstart : start = 0 ∨ start = 25) :
    (dustTypeStart "mw" = some 0 ∧ dustTypeStart "smc" = some 25)
    ∧ collectBlocks col 1300 start
        = (List.range 26).map (fun t => (col.drop (start + 50 * t)).take 25)
    ∧ (collectBlocks col 1300 start).length = 26
    ∧ (∀ b ∈ collectBlocks col 1300 start, b.length = 25)
    ∧ (transposeT (collectBlocks col 1300 start) 25).length = 25
    ∧ (∀ row ∈ transposeT (collectBlocks col 1300 start) 25, row.length = 26) := by
  have h25 : start ≤ 25 := by rcases hstart with h | h <;> omega
  have hmap := collectBlocks_1300 col start h25
  refine ⟨⟨by simp [dustTypeStart], by simp [dustTypeStart]⟩, hmap, ?_, ?_, ?_, ?_⟩
  · rw [hmap]
    simp
  · rw [hmap]
    intro b hb
    rw [List.mem_map] at hb
    obtain ⟨t, ht, rfl⟩ := hb
    rw [List.mem_range] at ht
    rw [List.length_take, List.length_drop, hcol]
    omega
  · simp [transposeT]
  · intro row hrow
    rw [transposeT, List.mem_map] at hrow
    obtain ⟨w, hw, rfl⟩ := hrow
    rw [List.length_map, hmap, List.length_map, List.length_range]

/-- C2 witness: the builder applied to a concrete 1300-row column at the
SMC offset produces 26 grid columns. -/
theorem C2_witness :
    (collectBlocks (List.replicate 1300 (0:ℚ)) 1300 25).length = 26 :=
  (C2_grid_builder (List.replicate 1300 0) (List.length_replicate _ _) 25 (Or.inr rfl)).2.2.1

/-- C3 (amended): out-of-grid interpolation queries do not raise — every
in-domain `evaluate` call returns a value — and queries exactly at a grid
node (axis endpoints included, so tauV = 0.25 and tauV = 50.0) return the
stored grid value; but a query beyond the top of an axis is *linearly
extrapolated* from the edge cell (`fill_value=None`), not clamped to the
boundary value. -/
theorem C3_no_raise_extrapolation :
    (∀ (m : WG00Model) (xs : List ℚ) (τ : ℚ),
        (∀ v ∈ xs, x_range_WG00.1 ≤ v ∧ v ≤ x_range_WG00.2) →
        (m.evaluate (NPInput.vec xs) τ).isOk = true)
    ∧ (∀ (xs vs : List ℚ) (q : ℚ), 2 ≤ xs.length → (∀ v ∈ xs, v < q) →
        interp1 xs vs q
          = blend (vs.getD (xs.length - 2) 0) (vs.getD (xs.length - 1) 0)
              ((q - xs.getD (xs.length - 2) 0)
                / (xs.getD (xs.length - 1) 0 - xs.getD (xs.length - 2) 0)))
    ∧ (∀ (xs vs : List ℚ) (k : ℕ), xs.Pairwise (· < ·) → 2 ≤ xs.length →
        k < xs.length → interp1 xs vs (xs.getD k 0) = vs.getD k 0) := by
  refine ⟨?_, ?_, ?_⟩
  · intro m xs τ h
    rw [evaluate_vec_ok m xs τ h]
    rfl
  · intro xs vs q hlen h
    exact interp1_extrapolate_top xs vs q hlen h
  · intro xs vs k hs hlen hk
    exact interp1_node xs vs hs hlen k hk

/-- C3 counterexample: on a concrete rising grid, the public `evaluate`
query at the in-domain wavelength 3.0001 micron (beyond the grid's native
top sample at 3.0 micron) returns the extrapolated value
`1.086 * 29001/29000`, not the boundary value `1.086 * 1` the claim
requires. -/
theorem C3_counterexample :
    M3.evaluate (NPInput.vec [30001/10000]) 1
      = Except.ok [(1.086 : ℚ) * (29001/29000)]
    ∧ M3.evaluate (NPInput.vec [30001/10000]) 1 ≠ Except.ok [(1.086 : ℚ) * 1] := by
  have hint : interp2 M3.model (10000 * (30001/10000 : ℚ)) 1 = 29001/29000 := by
    show interp2 ⟨[1000, 30000], [1/4, 50], [[0, 0], [1, 1]]⟩
      (10000 * (30001/10000 : ℚ)) 1 = 29001/29000
    rw [interp2_two_by_two]
    norm_num
  have he := evaluate_vec_ok M3 [30001/10000] 1 (by
    intro v hv
    rw [List.mem_singleton] at hv
    subst hv
    constructor <;> norm_num [x_range_WG00])
  rw [he]
  simp only [ne_eq, Except.ok.injEq, List.map_cons, List.map_nil, List.cons.injEq, and_true]
  rw [hint]
  norm_num

/-- C3 witness: the amended theorem's node conjunct applied to a concrete
two-point axis at its top endpoint. -/
theorem C3_witness :
    interp1 [(0:ℚ), 1] [(5:ℚ), 7] ([(0:ℚ), 1].getD 1 0) = [(5:ℚ), 7].getD 1 0 :=
  C3_no_raise_extrapolation.2.2 [0, 1] [5, 7] 1
    (by norm_num [List.pairwise_cons]) (by norm_num) (by norm_num)

/-- Helper: the bilinear interpolation of `M1`'s constant-1 grid at the
V-band query point is 1. -/
theorem interp2_M1_at_V : interp2 M1.model (10000 * (55/100 : ℚ)) 1 = 1 := by
  show interp2 ⟨[1000, 30000], [1/4, 50], [[1, 1], [1, 1]]⟩ (10000 * (55/100 : ℚ)) 1 = 1
  rw [interp2_two_by_two]
  norm_num

/-- C5: `evaluate` raises the documented `ValueError` exactly when some
element of the (unit-normalized) input vector is strictly below the
domain low bound or strictly above the high bound; in-range input
succeeds; and the error message carries the model label and both domain
bounds. -/
theorem C5_domain_validation (m : WG00Model) (xs : List ℚ) (τ : ℚ) :
    ((∃ v ∈ xs, v < x_range_WG00.1 ∨ x_range_WG00.2 < v)
      ↔ m.evaluate (NPInput.vec xs) τ
          = Except.error (PyError.valueError (range_error_msg x_range_WG00 "WG00")))
    ∧ ((∀ v ∈ xs, x_range_WG00.1 ≤ v ∧ v ≤ x_range_WG00.2) →
        (m.evaluate (NPInput.vec xs) τ).isOk = true)
    ∧ range_error_msg x_range_WG00 "WG00"
        = "Input x outside of range defined for " ++ "WG00" ++ " ["
          ++ toString x_range_WG00.1 ++ " <= x <= " ++ toString x_range_WG00.2
          ++ ", x has units micron]" := by
  refine ⟨⟨?_, ?_⟩, ?_, rfl⟩
  · intro hex
    unfold WG00Model.evaluate
    simp only [NPInput.toList]
    rw [test_valid_x_range_err _ _ _ hex]
    rfl
  · intro herr
    by_contra hnex
    have hall : ∀ v ∈ xs, x_range_WG00.1 ≤ v ∧ v ≤ x_range_WG00.2 := by
      intro v hv
      constructor
      · by_contra hlt
        exact hnex ⟨v, hv, Or.inl (not_le.mp hlt)⟩
      · by_contra hgt
        exact hnex ⟨v, hv, Or.inr (not_le.mp hgt)⟩
    rw [evaluate_vec_ok m xs τ hall] at herr
    exact Except.noConfusion herr
  · intro hall
    rw [evaluate_vec_ok m xs τ hall]
    rfl

/-- C5 witness: an input just below the low bound (0.099999 micron)
raises the documented error; an input exactly at the low bound succeeds. -/
theorem C5_witness :
    M1.evaluate (NPInput.vec [99999/1000000]) 1
      = Except.error (PyError.valueError (range_error_msg x_range_WG00 "WG00"))
    ∧ (M1.evaluate (NPInput.vec [1/10]) 1).isOk = true :=
  ⟨(C5_domain_validation M1 [99999/1000000] 1).1.mp
      ⟨99999/1000000, List.mem_singleton_self _, Or.inl (by norm_num [x_range_WG00])⟩,
   (C5_domain_validation M1 [1/10] 1).2.1 (by
      intro v hv
      rw [List.mem_singleton] at hv
      subst hv
      constructor <;> norm_num [x_range_WG00])⟩

/-- C6 (amended): the repository's defensive helper `_positive_klambda`
does clip negative curve values to zero and warns exactly when a negative
is present — but no WG00 evaluation path invokes it: `evaluate` returns
`1.086 *` the raw interpolated value unclipped, so negative interpolated
values propagate to the caller. -/
theorem C6_negative_values_not_clipped :
    (∀ klam : List ℚ,
      (∀ v ∈ (positive_klambda klam).2, 0 ≤ v)
      ∧ ((positive_klambda klam).1 = true ↔ ∃ v ∈ klam, v < 0))
    ∧ (∀ (m : WG00Model) (xs : List ℚ) (τ : ℚ),
        (∀ v ∈ xs, x_range_WG00.1 ≤ v ∧ v ≤ x_range_WG00.2) →
        m.evaluate (NPInput.vec xs) τ
          = Except.ok (xs.map (fun v => (1.086 : ℚ) * interp2 m.model (10000 * v) τ))) := by
  constructor
  · intro klam
    by_cases hall : klam.all (fun v => decide (0 ≤ v)) = true
    · have hres : positive_klambda klam = (false, klam) := by
        unfold positive_klambda
        rw [hall]
        rfl
      rw [hres]
      constructor
      · intro v hv
        simpa using List.all_eq_true.mp hall v hv
      · simp only [Bool.false_eq_true, false_iff]
        rintro ⟨v, hv, hneg⟩
        have := List.all_eq_true.mp hall v hv
        simp only [decide_eq_true_eq] at this
        exact absurd hneg (not_lt.mpr this)
    · have hfalse : klam.all (fun v => decide (0 ≤ v)) = false :=
        Bool.eq_false_iff.mpr hall
      have hres : positive_klambda klam
          = (true, klam.map (fun v => max v 0)) := by
        unfold positive_klambda
        rw [hfalse]
        rfl
      rw [hres]
      constructor
      · intro v hv
        obtain ⟨w, _, rfl⟩ := List.mem_map.mp hv
        exact le_max_right w 0
      · simp only [true_iff]
        by_contra hno
        apply hall
        rw [List.all_eq_true]
        intro v hv
        simp only [decide_eq_true_eq]
        by_contra hneg
        exact hno ⟨v, hv, not_le.mp hneg⟩
  · intro m xs τ h
    exact evaluate_vec_ok m xs τ h

/-- C6 witness: the helper warns on a concrete negative input, and on
`Mneg` (whose attenuation grid is the constant −1) `evaluate` returns
the raw `1.086 * interp2` values with no clipping applied. -/
theorem C6_witness :
    (positive_klambda [-(1:ℚ), 2]).1 = true
    ∧ Mneg.evaluate (NPInput.vec [55/100]) 1
        = Except.ok ([55/100].map
            (fun v => (1.086 : ℚ) * interp2 Mneg.model (10000 * v) 1)) :=
  ⟨(C6_negative_values_not_clipped.1 [-(1:ℚ), 2]).2.mpr
      ⟨-1, List.mem_cons_self _ _, by norm_num⟩,
   C6_negative_values_not_clipped.2 Mneg [55/100] 1 (by
      intro v hv
      rw [List.mem_singleton] at hv
      subst hv
      constructor <;> norm_num [x_range_WG00])⟩

/-- C6 counterexample: on a concrete grid holding constant optical depth
−1, `evaluate` returns the negative magnitude −1.086 to the caller — no
evaluation path clips it to zero. -/
theorem C6_counterexample :
    Mneg.evaluate (NPInput.vec [55/100]) 1 = Except.ok [-(543/500 : ℚ)]
    ∧ (-(543/500 : ℚ)) < 0 := by
  have hint : interp2 Mneg.model (10000 * (55/100 : ℚ)) 1 = -1 := by
    show interp2 ⟨[1000, 30000], [1/4, 50], [[-1, -1], [-1, -1]]⟩
      (10000 * (55/100 : ℚ)) 1 = -1
    rw [interp2_two_by_two]
    norm_num
  refine ⟨?_, by norm_num⟩
  rw [evaluate_vec_ok Mneg [55/100] 1 (by
    intro v hv
    rw [List.mem_singleton] at hv
    subst hv
    constructor <;> norm_num [x_range_WG00])]
  simp only [List.map_cons, List.map_nil, hint]
  norm_num

/-- C7 (code bug): `WG00.evaluate` crashes on scalar input — it calls
`len(x)` without the `np.atleast_1d` conversion every sibling method
performs, so an in-domain 0-d input raises `TypeError` while the same
input passed to `get_extinction` succeeds, and vector input succeeds. -/
theorem C7_scalar_input_crash :
    M1.evaluate (NPInput.scalar (55/100)) 1
      = Except.error (PyError.typeError "len() of unsized object")
    ∧ (M1.get_extinction (NPInput.scalar (55/100)) 1).isOk = true
    ∧ (M1.evaluate (NPInput.vec [55/100, 2]) 1).isOk = true := by
  have hok : test_valid_x_range (NPInput.scalar (55/100 : ℚ)).toList
      x_range_WG00 "WG00" = Except.ok () := by
    apply test_valid_x_range_ok
    intro v hv
    simp only [NPInput.toList, List.mem_singleton] at hv
    subst hv
    constructor <;> norm_num [x_range_WG00]
  refine ⟨?_, ?_, ?_⟩
  · unfold WG00Model.evaluate
    rw [hok]
    rfl
  · unfold WG00Model.get_extinction
    rw [hok]
    rfl
  · rw [evaluate_vec_ok M1 [55/100, 2] 1 (by
      intro v hv
      rcases List.mem_cons.mp hv with rfl | hv
      · constructor <;> norm_num [x_range_WG00]
      · rw [List.mem_singleton] at hv
        subst hv
        constructor <;> norm_num [x_range_WG00])]
    rfl

/-- C9: `attenuate(x)` is `10 ** (-0.4 * evaluate(x))` element-wise — it
calls `self(x)` (the same unit-normalization and domain-validation path
as `evaluate`) and maps the fixed power, so it returns a value exactly
when `evaluate` does and propagates exactly `evaluate`'s error. -/
theorem C9_attenuate_roundtrip (m : WG00Model) (x : NPInput) :
    ((m.attenuate x).isOk = (m.call x).isOk)
    ∧ (∀ axs, m.call x = Except.ok axs →
        m.attenuate x
          = Except.ok (axs.map (fun a => (10 : ℝ) ^ ((-0.4 : ℝ) * (a : ℚ)))))
    ∧ (∀ e, m.call x = Except.error e → m.attenuate x = Except.error e) := by
  refine ⟨?_, ?_, ?_⟩
  · unfold WG00Model.attenuate
    cases hc : m.call x <;> rfl
  · intro axs hc
    unfold WG00Model.attenuate
    rw [hc]
    rfl
  · intro e hc
    unfold WG00Model.attenuate
    rw [hc]
    rfl

/-- C9 witness: on `M1` at the V-band wavelength, `attenuate` returns
`10 ** (-0.4 * 1.086)`. -/
theorem C9_witness :
    M1.attenuate (NPInput.vec [55/100])
      = Except.ok ([(543/500 : ℚ)].map
          (fun a => (10 : ℝ) ^ ((-0.4 : ℝ) * (a : ℚ)))) :=
  (C9_attenuate_roundtrip M1 (NPInput.vec [55/100])).2.1 [(543/500 : ℚ)] (by
    show M1.evaluate (NPInput.vec [55/100]) M1.tau_V = Except.ok [(543/500 : ℚ)]
    rw [evaluate_vec_ok M1 [55/100] M1.tau_V (by
      intro v hv
      rw [List.mem_singleton] at hv
      subst hv
      constructor <;> norm_num [x_range_WG00])]
    simp only [List.map_cons, List.map_nil]
    rw [show M1.tau_V = 1 from rfl, interp2_M1_at_V]
    norm_num)

/-- C10: the embedded MW and SMC scattering phase-function tables are
identical, so two models differing only in dust type return equal
`get_scattering_phase_function` values on every input. -/
theorem C10_phase_function_dust_type_independent (m msmc : WG00Model)
    (x : NPInput) (hmw : m.dust_type = "mw") (hsmc : msmc.dust_type = "smc")
    (hw : m.wvl_grid = msmc.wvl_grid) :
    m.get_scattering_phase_function x = msmc.get_scattering_phase_function x := by
  unfold WG00Model.get_scattering_phase_function
  rw [hmw, hsmc, hw]
  have hg : g_MW = g_SMC := rfl
  simp [hg]

/-- C10 witness: the concrete MW model `M1` and its SMC twin agree at the
V-band wavelength. -/
theorem C10_witness :
    M1.get_scattering_phase_function (NPInput.vec [55/100])
      = M1smc.get_scattering_phase_function (NPInput.vec [55/100]) :=
  C10_phase_function_dust_type_independent M1 M1smc (NPInput.vec [55/100]) rfl rfl rfl

/-- C4 (amended): constructing a WG00 model with `tau_V` outside
`[0.25, 50.0]` does raise `InputParameterError` — but only *after* the
data source has been read and the interpolation grids built, because the
inherited validation (`super().__init__`) is the last statement of
`WG00.__init__`; the claim's "before any grid is built" ordering does
not hold. -/
theorem C4_validation_after_grid_build (files : String → Option DataTable)
    (data : DataTable) (τ : ℚ) (g d dist : String)
    (hg : files (pyLower g) = some data)
    (hd : pyLower d = "mw" ∨ pyLower d = "smc")
    (hdist : pyLower dist = "clumpy" ∨ pyLower dist = "homogeneous")
    (hτ : τ < 1/4 ∨ 50 < τ) :
    (WG00init files τ g d dist).1 = ⟨true, true⟩
    ∧ (WG00init files τ g d dist).2
        = Except.error (PyError.inputParameterError
            ("parameter tau_V must be between " ++ toString tau_V_range_WG00.1
              ++ " and " ++ toString tau_V_range_WG00.2)) := by
  have hcond : ¬ (tau_V_range_WG00.1 ≤ τ ∧ τ ≤ tau_V_range_WG00.2) := by
    rintro ⟨h1, h2⟩
    rw [show tau_V_range_WG00.1 = (1/4 : ℚ) from rfl] at h1
    rw [show tau_V_range_WG00.2 = (50 : ℚ) from rfl] at h2
    rcases hτ with h | h <;> linarith
  have hval : tau_V_validator τ = Except.error (PyError.inputParameterError
      ("parameter tau_V must be between " ++ toString tau_V_range_WG00.1
        ++ " and " ++ toString tau_V_range_WG00.2)) := by
    unfold tau_V_validator
    rw [if_neg hcond]
  rcases hd with hd | hd <;> rcases hdist with hdist | hdist <;>
    simp [WG00init, dustTypeStart, readLoopColumn, DataTable.getColumn,
      Except.bind, Except.map, hg, hd, hdist, hval]

/-- C4 counterexample: with `tau_V = 0.1` and the valid selection
(shell, mw, homogeneous) over a concrete data provider, construction does
raise `InputParameterError` — but the trace shows the data source *was*
accessed and the grids *were* built first, refuting the claimed
fail-before-any-grid ordering. -/
theorem C4_counterexample :
    (WG00init sampleFiles (1/10) "shell" "mw" "homogeneous").2
      = Except.error (PyError.inputParameterError
          ("parameter tau_V must be between " ++ toString tau_V_range_WG00.1
            ++ " and " ++ toString tau_V_range_WG00.2))
    ∧ (WG00init sampleFiles (1/10) "shell" "mw" "homogeneous").1.dataAccessed = true
    ∧ (WG00init sampleFiles (1/10) "shell" "mw" "homogeneous").1.gridsBuilt = true := by
  have hg : pyLower "shell" = "shell" := by decide
  have hd : pyLower "mw" = "mw" := by decide
  have hh : pyLower "homogeneous" = "homogeneous" := by decide
  have hval : tau_V_validator ((10:ℚ)⁻¹) = Except.error (PyError.inputParameterError
      ("parameter tau_V must be between " ++ toString tau_V_range_WG00.1
        ++ " and " ++ toString tau_V_range_WG00.2)) := by
    unfold tau_V_validator
    rw [if_neg]
    rintro ⟨h1, _⟩
    rw [show tau_V_range_WG00.1 = (1/4 : ℚ) from rfl] at h1
    norm_num at h1
  refine ⟨?_, ?_, ?_⟩ <;>
    simp [WG00init, dustTypeStart, readLoopColumn, DataTable.getColumn,
      Except.bind, Except.map, sampleFiles, hg, hd, hh, hval]

/-- C4 witness: the amended theorem applied to the concrete provider with
`tau_V = 0.1`: the full trace (data accessed, grids built) is reached. -/
theorem C4_witness :
    (WG00init sampleFiles (1/10) "shell" "mw" "homogeneous").1 = ⟨true, true⟩ :=
  (C4_validation_after_grid_build sampleFiles sampleTable (1/10)
    "shell" "mw" "homogeneous" (by decide) (Or.inl (by decide))
    (Or.inr (by decide)) (Or.inl (by norm_num))).1

/-- C8 (amended): a selection with no backing data always fails at
construction — never a silent default — but with accidental error kinds,
not a `ConfigurationError` naming the combination: an unknown dust type
dies with `NameError` (the local `start` is never assigned), an unknown
distribution dies with `KeyError` on the unsuffixed column name
`tau_att`, and an unknown geometry dies with the file-not-found error of
the data read. -/
theorem C8_no_configuration_error :
    (∀ (files : String → Option DataTable) (data : DataTable) (τ : ℚ)
        (g d dist : String), files (pyLower g) = some data →
        pyLower d ≠ "mw" → pyLower d ≠ "smc" →
        (WG00init files τ g d dist).2 = Except.error (PyError.nameError "start"))
    ∧ (∀ (files : String → Option DataTable) (data : DataTable) (τ : ℚ)
        (g d dist : String), files (pyLower g) = some data →
        pyLower d = "mw" →
        pyLower dist ≠ "clumpy" → pyLower dist ≠ "homogeneous" →
        data.lam ≠ [] →
        (WG00init files τ g d dist).2 = Except.error (PyError.keyError "tau_att"))
    ∧ (∀ (files : String → Option DataTable) (τ : ℚ) (g d dist : String),
        files (pyLower g) = none →
        (WG00init files τ g d dist).2
          = Except.error (PyError.fileNotFoundError (pyLower g ++ ".txt"))) := by
  refine ⟨?_, ?_, ?_⟩
  · intro files data τ g d dist hg hd1 hd2
    simp [WG00init, dustTypeStart, hg, hd1, hd2]
  · intro files data τ g d dist hg hd hdist1 hdist2 hlam
    have hlen : 0 < data.lam.length := List.length_pos.mpr hlam
    simp [WG00init, dustTypeStart, readLoopColumn, DataTable.getColumn,
      Except.bind, Except.map, hg, hd, hdist1, hdist2, hlen]
  · intro files τ g d dist hg
    simp [WG00init, hg]

/-- C8 counterexample: concrete invalid selections fail with `NameError`
(unknown dust type) and `KeyError` (unknown distribution) — not with any
`ConfigurationError` naming the missing combination. -/
theorem C8_counterexample :
    (WG00init sampleFiles 1 "shell" "unobtainium" "homogeneous").2
      = Except.error (PyError.nameError "start")
    ∧ (WG00init sampleFiles 1 "shell" "mw" "fractal").2
      = Except.error (PyError.keyError "tau_att") := by
  have hg : pyLower "shell" = "shell" := by decide
  have hd1 : pyLower "unobtainium" = "unobtainium" := by decide
  have hd2 : pyLower "mw" = "mw" := by decide
  have hh : pyLower "homogeneous" = "homogeneous" := by decide
  have hf : pyLower "fractal" = "fractal" := by decide
  constructor
  · simp [WG00init, dustTypeStart, sampleFiles, hg, hd1, hh]
  · simp [WG00init, dustTypeStart, readLoopColumn, DataTable.getColumn,
      Except.bind, Except.map, sampleFiles, sampleTable, hg, hd2, hf]

/-- C8 witness: the amended theorem's dust-type conjunct applied to a
concrete unknown dust type. -/
theorem C8_witness :
    (WG00init sampleFiles 1 "shell" "xx" "homogeneous").2
      = Except.error (PyError.nameError "start") :=
  C8_no_configuration_error.1 sampleFiles sampleTable 1 "shell" "xx" "homogeneous"
    (by decide) (by decide) (by decide)
